import Mathlib

/-!
Shallow embedding of the wrap/unwrap bot (src/bot.py) and proofs of the
specification claims.  Pure computation is translated directly; each
interaction with the chain RPC client (balance queries, gas estimation,
signing, broadcast, receipt lookup) is modelled as a field of an explicit
environment record whose value is an `Except Unit` result: `.error ()`
stands for a raised Python exception, `.ok v` for a normal return of `v`.
Counters loaded from the persisted JSON file are arbitrary integers, so
they are modelled as `Int`.
-/

namespace WrapBot

/-- Address of an account or contract, as a checksummed hex string. -/
abbrev Address := String

/-- Constant from bot.py line 73: web3.to_wei(0.025, "gwei") = 25000000 wei. -/
def max_priority_fee_per_gas : Nat := 25000000

/-- Constant from bot.py line 74: web3.to_wei(0.025, "gwei") = 25000000 wei. -/
def max_fee_per_gas : Nat := 25000000

/-- Constant from bot.py line 69: web3.to_wei(0.4, "ether") = 4 * 10^17 wei. -/
def amount_in_wei : Nat := 400000000000000000

/-! ## Balance gate (bot.py lines 85-98, has_sufficient_balance) -/

/-- Results of the chain queries made inside one call of
has_sufficient_balance: the gas estimate of the deposit/withdraw call,
and the two balance reads.  An `.error ()` value models the query raising. -/
structure GateEnv where
  estGas : Except Unit Nat
  ethBalance : Except Unit Int
  wethBalance : Except Unit Int

/-- Translation of has_sufficient_balance (bot.py lines 85-98).  The whole
body sits in a try/except returning False, so any raising query yields
`false`.  For a wrap the native balance is compared against
max_priority_fee_per_gas * gas_estimate (the fee only); for an unwrap the
wrapped-token balance is compared against the amount. -/
def has_sufficient_balance (amountInWei : Nat) ( is_wrap : Bool) (env : GateEnv) : Bool :=
  match env.estGas with
  | .error _ => false
  | .ok gasEstimate =>
    let totalCost : Int := (max_priority_fee_per_gas : Int) * gasEstimate
    if is_wrap then
      match env.ethBalance with
      | .error _ => false
      | .ok b => decide (totalCost ≤ b)
    else
      match env.wethBalance with
      | .error _ => false
      | .ok b => decide ((amountInWei : Int) ≤ b)

/-! ## Confirmation watcher (bot.py lines 100-115, wait_for_confirmation) -/

/-- What one receipt query observes: a receipt carrying an integer status,
no receipt yet, or the query itself raising (swallowed by the bare except). -/
inductive PollStep where
  | receipt (status : Int)
  | noReceipt
  | queryError
deriving DecidableEq, Repr

/-- Outcome of the watcher: the three return paths of wait_for_confirmation
(status 1, status 0, and falling out of the timed while loop). -/
inductive ConfirmOutcome where
  | confirmed
  | reverted
  | timedOut
deriving DecidableEq, Repr

/-- The polling loop of wait_for_confirmation.  The loop body runs while
elapsed < timeout; each non-resolving iteration sleeps 30 time units, so
polls happen at elapsed times 0, 30, 60, ....  A receipt with status 1
returns Confirmed, status 0 returns Reverted, anything else (no receipt,
an unexpected status, or a raising query) leaves the loop polling with the
deadline untouched. -/
def waitLoop (poll : Nat → PollStep) (timeout elapsed : Nat) : ConfirmOutcome :=
  if _h : elapsed < timeout then
    match poll elapsed with
    | .receipt s =>
      if s = 1 then .confirmed
      else if s = 0 then .reverted
      else waitLoop poll timeout (elapsed + 30)
    | .noReceipt => waitLoop poll timeout (elapsed + 30)
    | .queryError => waitLoop poll timeout (elapsed + 30)
  else .timedOut
termination_by timeout - elapsed
decreasing_by all_goals omega

/-- Translation of wait_for_confirmation (bot.py lines 100-115): start the
clock at zero and poll until resolution or timeout.  The timeout argument
defaults to 300 in the source; both call sites use that default, so the
attempt functions below pass 300 explicitly. -/
def wait_for_confirmation (poll : Nat → PollStep) (timeout : Nat) : ConfirmOutcome :=
  waitLoop poll timeout 0

/-- How a single poll observation resolves the watcher: `some true` means a
success receipt, `some false` a failure receipt, `none` no resolution. -/
def resolvesTo : PollStep → Option Bool
  | .receipt s => if s = 1 then some true else if s = 0 then some false else none
  | .noReceipt => none
  | .queryError => none

/-! ## Transaction payloads (bot.py lines 123-132 and 148-156) -/

/-- The transaction dict built by wrap_eth_to_weth / unwrap_weth_to_eth.
The data field is the byte sequence denoted by the hex string in the
source; the wrap dict has a value entry, the unwrap dict has none. -/
structure Txn where
  toAddr : Address
  chainId : Nat
  gas : Nat
  maxFeePerGas : Nat
  maxPriorityFeePerGas : Nat
  nonce : Nat
  value : Option Nat
  data : List Nat
deriving DecidableEq, Repr

/-- Bytes of the hex literal "0xd0e30db0", the 4-byte deposit() selector. -/
def depositSelector : List Nat := [0xd0, 0xe3, 0x0d, 0xb0]

/-- Bytes of the hex literal "0x2e1a7d4d", the 4-byte withdraw(uint256) selector. -/
def withdrawSelector : List Nat := [0x2e, 0x1a, 0x7d, 0x4d]

/-- Big-endian byte encoding on `len` bytes, the meaning of Python's
amount_in_wei.to_bytes(len, "big"). -/
def toBytesBE : Nat → Nat → List Nat
  | 0, _ => []
  | len + 1, n => toBytesBE len (n / 256) ++ [n % 256]

/-- Big-endian interpretation of a byte list, used to state that
toBytesBE really is the big-endian encoding. -/
def ofBytesBE (bs : List Nat) : Nat :=
  bs.foldl (fun acc b => acc * 256 + b) 0

/-- The dict literal of bot.py lines 123-132: wrap transaction, carrying
the amount as native value and the bare deposit selector as data. -/
def buildWrapTxn (wethAddr : Address) (nonce gasEstimate amountInWei : Nat) : Txn :=
  { toAddr := wethAddr
    chainId := 167000
    gas := gasEstimate
    maxFeePerGas := max_fee_per_gas
    maxPriorityFeePerGas := max_priority_fee_per_gas
    nonce := nonce
    value := some amountInWei
    data := depositSelector }

/-- The dict literal of bot.py lines 148-156: unwrap transaction, no value
entry, data = withdraw selector followed by the 32-byte big-endian amount. -/
def buildUnwrapTxn (wethAddr : Address) (nonce gasEstimate amountInWei : Nat) : Txn :=
  { toAddr := wethAddr
    chainId := 167000
    gas := gasEstimate
    maxFeePerGas := max_fee_per_gas
    maxPriorityFeePerGas := max_priority_fee_per_gas
    nonce := nonce
    value := none
    data := withdrawSelector ++ toBytesBE 32 amountInWei }

/-! ## Attempt functions (bot.py lines 117-140 and 142-164) -/

/-- Results of every chain interaction made by one call of
wrap_eth_to_weth or unwrap_weth_to_eth, in program order: the two queries
inside the has_sufficient_balance call, the nonce fetched just before
building, the second gas estimation (bot.py line 122 / 147, outside any
try), the signing call (line 133 / 157, outside any try), the broadcast
(line 135 / 159, inside the try), and the receipt poll trace consumed by
wait_for_confirmation. -/
structure AttemptEnv where
  gate : GateEnv
  nonce : Nat
  estGas : Except Unit Nat
  signTx : Txn → Except Unit Unit
  send : Except Unit Nat
  polls : Nat → PollStep

/-- Translation of wrap_eth_to_weth (bot.py lines 117-140).  `.ok b` is the
Python return value b; `.error ()` is an exception escaping the function
(which in the real program kills the process).  Only the broadcast is
inside a try/except; the second gas estimation and the signing call are
not, so their failures escape. -/
def wrap_eth_to_weth (wethAddr : Address) (amountInWei : Nat) (env : AttemptEnv) :
    Except Unit Bool :=
  if has_sufficient_balance amountInWei true env.gate then
    match env.estGas with
    | .error e => .error e
    | .ok gasEstimate =>
      match env.signTx (buildWrapTxn wethAddr env.nonce gasEstimate amountInWei) with
      | .error e => .error e
      | .ok _ =>
        match env.send with
        | .error _ => .ok false
        | .ok _ => .ok (decide (wait_for_confirmation env.polls 300 = .confirmed))
  else .ok false

/-- Translation of unwrap_weth_to_eth (bot.py lines 142-164), with the same
exception structure as the wrap attempt. -/
def unwrap_weth_to_eth (wethAddr : Address) (amountInWei : Nat) (env : AttemptEnv) :
    Except Unit Bool :=
  if has_sufficient_balance amountInWei false env.gate then
    match env.estGas with
    | .error e => .error e
    | .ok gasEstimate =>
      match env.signTx (buildUnwrapTxn wethAddr env.nonce gasEstimate amountInWei) with
      | .error e => .error e
      | .ok _ =>
        match env.send with
        | .error _ => .ok false
        | .ok _ => .ok (decide (wait_for_confirmation env.polls 300 = .confirmed))
  else .ok false

/-! ## Progress store (bot.py lines 166-181) -/

/-- What reading and JSON-decoding transaction_status.json yields: the file
is missing (FileNotFoundError), its text is not JSON (JSONDecodeError), or
it decodes to an object, modelled as an association list from field names
to integer field values. -/
inductive FileRead where
  | notFound
  | decodeError
  | parsed (obj : List (String × Int))
deriving DecidableEq, Repr

/-- Python's status[key] on the decoded object: the value, or a KeyError. -/
def lookupField (obj : List (String × Int)) (key : String) : Except Unit Int :=
  match obj.find? (fun p => p.1 == key) with
  | some p => .ok p.2
  | none => .error ()

/-- Translation of load_transaction_status (bot.py lines 175-181).  The
try block covers the open, the JSON decode and the three subscript reads,
but the except clause only names FileNotFoundError and JSONDecodeError, so
a KeyError from a missing field escapes as `.error ()`. -/
def load_transaction_status (f : FileRead) : Except Unit (Int × Int × Int) :=
  match f with
  | .notFound => .ok (0, 0, 0)
  | .decodeError => .ok (0, 0, 0)
  | .parsed obj =>
    match lookupField obj "wrap_counter" with
    | .error e => .error e
    | .ok w =>
      match lookupField obj "unwrap_counter" with
      | .error e => .error e
      | .ok u =>
        match lookupField obj "total_tx" with
        | .error e => .error e
        | .ok t => .ok (w, u, t)

/-- The object written by save_transaction_status (bot.py lines 166-173). -/
def save_transaction_status (wrapCounter unwrapCounter totalTx : Int) :
    List (String × Int) :=
  [("wrap_counter", wrapCounter), ("unwrap_counter", unwrapCounter), ("total_tx", totalTx)]

/-! ## Orchestrator loop (bot.py lines 183-206) -/

/-- In-memory loop state: the three counters plus whether
transaction_status.json currently exists on disk. -/
structure St where
  wrap : Int
  unwrap : Int
  total : Int
  file : Bool
deriving DecidableEq, Repr

/-- The wrap branch of one loop iteration (bot.py lines 186-191), given
the Bool the wrap attempt returned (`.error ()` when the attempt raised).
Produces the successor state and the list of states persisted by
save_transaction_status during the branch.  The attempt runs only when
wrap_counter < 45 and total_tx < 90. -/
def wrapBranch (r : Except Unit Bool) (s : St) : Except Unit St × List St :=
  if s.wrap < 45 ∧ s.total < 90 then
    match r with
    | .error e => (.error e, [])
    | .ok true =>
      let s2 : St := ⟨s.wrap + 1, s.unwrap, s.total + 1, true⟩
      (.ok s2, [s2])
    | .ok false => (.ok s, [])
  else (.ok s, [])

/-- The unwrap branch of one loop iteration (bot.py lines 193-198). -/
def unwrapBranch (r : Except Unit Bool) (s : St) : Except Unit St × List St :=
  if s.unwrap < 45 ∧ s.total < 90 then
    match r with
    | .error e => (.error e, [])
    | .ok true =>
      let s2 : St := ⟨s.wrap, s.unwrap + 1, s.total + 1, true⟩
      (.ok s2, [s2])
    | .ok false => (.ok s, [])
  else (.ok s, [])

/-- The quota check at bot.py lines 200-204: once total_tx ≥ 90 the status
file is removed (a no-op when it does not exist) and the loop breaks. -/
def quotaCheck (s : St) : St :=
  if s.total ≥ 90 then { s with file := false } else s

/-- One full iteration of the while loop, driven by the results of the two
attempt calls.  States persisted before an exception are still recorded. -/
def cycle (rw ru : Except Unit Bool) (s : St) : Except Unit St × List St :=
  match wrapBranch rw s with
  | (.error e, l1) => (.error e, l1)
  | (.ok s1, l1) =>
    match unwrapBranch ru s1 with
    | (.error e, l2) => (.error e, l1 ++ l2)
    | (.ok s2, l2) => (.ok (quotaCheck s2), l1 ++ l2)

/-- State after n iterations of the while loop, where env gives the two
attempt results of each iteration.  Iteration n runs only when the loop
condition total_tx < 90 still holds; an escaped exception freezes the run. -/
def stateAt (env : Nat → Except Unit Bool × Except Unit Bool) (s0 : St) : Nat → Except Unit St
  | 0 => .ok s0
  | n + 1 =>
    match stateAt env s0 n with
    | .error e => .error e
    | .ok s => if s.total < 90 then ((cycle (env n).1 (env n).2 s).1) else .ok s

/-- The states persisted during iteration n (empty when the loop has
already ended or the run has died). -/
def savesIn (env : Nat → Except Unit Bool × Except Unit Bool) (s0 : St) (n : Nat) : List St :=
  match stateAt env s0 n with
  | .error _ => []
  | .ok s => if s.total < 90 then (cycle (env n).1 (env n).2 s).2 else []

/-! ## Concrete instances used by witnesses -/

/-- Attempt result oracle where every attempt confirms. -/
def envAllOk : Nat → Except Unit Bool × Except Unit Bool := fun _ => (.ok true, .ok true)

/-- Attempt result oracle where every attempt fails softly. -/
def envAllFail : Nat → Except Unit Bool × Except Unit Bool := fun _ => (.ok false, .ok false)

/-- Gate environment with a 21000 gas estimate and ample balances. -/
def gateRich : GateEnv :=
  { estGas := .ok 21000
    ethBalance := .ok 1000000000000000
    wethBalance := .ok 1000000000000000000 }

/-- Attempt environment whose signing call raises; everything before it
succeeds and the balance gate passes. -/
def envSignFail : AttemptEnv :=
  { gate := gateRich
    nonce := 0
    estGas := .ok 21000
    signTx := fun _ => .error ()
    send := .ok 1
    polls := fun _ => .noReceipt }

/-- Attempt environment whose broadcast raises (caught by the source). -/
def envSendFail : AttemptEnv :=
  { gate := gateRich
    nonce := 0
    estGas := .ok 21000
    signTx := fun _ => .ok ()
    send := .error ()
    polls := fun _ => .noReceipt }

/-- Poll trace that never yields a receipt. -/
def pollsNever : Nat → PollStep := fun _ => .noReceipt

/-- Poll trace with an immediate success receipt. -/
def pollsNow : Nat → PollStep := fun _ => .receipt 1

/-- Loaded state whose total already exceeds the quota. -/
def stHigh : St := ⟨0, 0, 100, true⟩

/-! # Theorems -/

/-! ## Helper lemmas about byte encoding -/

lemma toBytesBE_length (len : Nat) : ∀ n, (toBytesBE len n).length = len := by
  induction len with
  | zero => intro n; simp [toBytesBE]
  | succ l ih => intro n; simp [toBytesBE, ih]

lemma ofBytesBE_append (xs : List Nat) (b : Nat) :
    ofBytesBE (xs ++ [b]) = ofBytesBE xs * 256 + b := by
  simp [ofBytesBE, List.foldl_append, Nat.mul_comm]

lemma ofBytesBE_toBytesBE (len : Nat) : ∀ n, n < 256 ^ len →
    ofBytesBE (toBytesBE len n) = n := by
  induction len with
  | zero =>
    intro n h
    simp [Nat.pow_zero] at h
    simp [toBytesBE, ofBytesBE, h]
  | succ l ih =>
    intro n h
    have hdiv : n / 256 < 256 ^ l := by
      rw [Nat.div_lt_iff_lt_mul (by norm_num : 0 < 256)]
      calc n < 256 ^ (l + 1) := h
        _ = 256 ^ l * 256 := by ring
    rw [toBytesBE, ofBytesBE_append, ih (n / 256) hdiv]
    omega

/-! ## Helper lemmas about the confirmation watcher -/

lemma waitLoop_done (poll : Nat → PollStep) (timeout elapsed : Nat)
    (h : ¬ elapsed < timeout) :
    waitLoop poll timeout elapsed = .timedOut := by
  rw [waitLoop]
  simp [h]

lemma waitLoop_step_none (poll : Nat → PollStep) (timeout elapsed : Nat)
    (h : elapsed < timeout) (hp : resolvesTo (poll elapsed) = none) :
    waitLoop poll timeout elapsed = waitLoop poll timeout (elapsed + 30) := by
  rw [waitLoop]
  cases hstep : poll elapsed with
  | receipt s =>
    rw [hstep] at hp
    simp only [resolvesTo] at hp
    split_ifs at hp with h1 h0
    simp [h, h1, h0]
  | noReceipt => simp [h, hstep]
  | queryError => simp [h, hstep]

lemma waitLoop_step_some (poll : Nat → PollStep) (timeout elapsed : Nat)
    (h : elapsed < timeout) (b : Bool) (hp : resolvesTo (poll elapsed) = some b) :
    waitLoop poll timeout elapsed = (if b then .confirmed else .reverted) := by
  rw [waitLoop]
  cases hstep : poll elapsed with
  | receipt s =>
    rw [hstep] at hp
    simp only [resolvesTo] at hp
    split_ifs at hp with h1 h0
    · injection hp with hb; subst hb; simp [h, h1]
    · injection hp with hb; subst hb; simp [h, h1, h0]
  | noReceipt => rw [hstep] at hp; simp [resolvesTo] at hp
  | queryError => rw [hstep] at hp; simp [resolvesTo] at hp

lemma waitLoop_timedOut_of (poll : Nat → PollStep) (timeout : Nat) :
    ∀ fuel m, timeout ≤ 30 * m + fuel →
      (∀ k, m ≤ k → 30 * k < timeout → resolvesTo (poll (30 * k)) = none) →
      waitLoop poll timeout (30 * m) = .timedOut := by
  intro fuel
  induction fuel with
  | zero =>
    intro m hf _
    exact waitLoop_done poll timeout _ (by omega)
  | succ f ih =>
    intro m hf hnone
    by_cases hlt : 30 * m < timeout
    · have h0 := hnone m (le_refl m) hlt
      rw [waitLoop_step_none poll timeout _ hlt h0]
      have h30 : 30 * m + 30 = 30 * (m + 1) := by ring
      rw [h30]
      exact ih (m + 1) (by omega) (fun k hk hk2 => hnone k (by omega) hk2)
    · exact waitLoop_done poll timeout _ hlt

lemma waitLoop_resolve_at (poll : Nat → PollStep) (timeout : Nat) (b : Bool) :
    ∀ k m, 30 * (m + k) < timeout → resolvesTo (poll (30 * (m + k))) = some b →
      (∀ j, j < k → resolvesTo (poll (30 * (m + j))) = none) →
      waitLoop poll timeout (30 * m) = (if b then .confirmed else .reverted) := by
  intro k
  induction k with
  | zero =>
    intro m hk hres _
    exact waitLoop_step_some poll timeout _ (by omega) b (by simpa using hres)
  | succ k ih =>
    intro m hk hres hprev
    have hlt : 30 * m < timeout := by omega
    have h0 : resolvesTo (poll (30 * m)) = none := by
      simpa using hprev 0 (Nat.succ_pos k)
    rw [waitLoop_step_none poll timeout _ hlt h0]
    have h30 : 30 * m + 30 = 30 * (m + 1) := by ring
    rw [h30]
    apply ih (m + 1) (by omega)
    · have he : 30 * (m + 1 + k) = 30 * (m + (k + 1)) := by ring
      rw [he]
      exact hres
    · intro j hj
      have := hprev (j + 1) (by omega)
      have he : 30 * (m + (j + 1)) = 30 * (m + 1 + j) := by ring
      rwa [he] at this

lemma waitLoop_congr (poll poll2 : Nat → PollStep) (timeout : Nat)
    (h : ∀ t, resolvesTo (poll t) = resolvesTo (poll2 t)) :
    ∀ fuel elapsed, timeout ≤ elapsed + fuel →
      waitLoop poll timeout elapsed = waitLoop poll2 timeout elapsed := by
  intro fuel
  induction fuel with
  | zero =>
    intro e he
    have hge : ¬ e < timeout := by omega
    rw [waitLoop_done poll timeout e hge, waitLoop_done poll2 timeout e hge]
  | succ f ih =>
    intro e he
    by_cases hlt : e < timeout
    · cases hres : resolvesTo (poll e) with
      | none =>
        rw [waitLoop_step_none poll _ _ hlt hres,
          waitLoop_step_none poll2 _ _ hlt (by rw [← h]; exact hres)]
        exact ih (e + 30) (by omega)
      | some b =>
        rw [waitLoop_step_some poll _ _ hlt b hres,
          waitLoop_step_some poll2 _ _ hlt b (by rw [← h]; exact hres)]
    · rw [waitLoop_done poll timeout e hlt, waitLoop_done poll2 timeout e hlt]

/-- C5: the confirmation watcher reports Confirmed when a success receipt
arrives within the timeout, Reverted when a failure receipt arrives within
the timeout, and TimedOut when no poll within the timeout resolves the
handle; the three outcomes are mutually exclusive and exhaustive, and a
transient receipt-query error behaves exactly like a missing receipt, so
it neither shortens nor resets the timeout window. -/
theorem confirmation_watcher_spec (poll : Nat → PollStep) (timeout : Nat) :
    ((∀ k, 30 * k < timeout → resolvesTo (poll (30 * k)) = none) →
      wait_for_confirmation poll timeout = .timedOut) ∧
    (∀ k, 30 * k < timeout → resolvesTo (poll (30 * k)) = some true →
      (∀ j, j < k → resolvesTo (poll (30 * j)) = none) →
      wait_for_confirmation poll timeout = .confirmed) ∧
    (∀ k, 30 * k < timeout → resolvesTo (poll (30 * k)) = some false →
      (∀ j, j < k → resolvesTo (poll (30 * j)) = none) →
      wait_for_confirmation poll timeout = .reverted) ∧
    (∀ poll2, (∀ t, resolvesTo (poll t) = resolvesTo (poll2 t)) →
      wait_for_confirmation poll timeout = wait_for_confirmation poll2 timeout) ∧
    (wait_for_confirmation poll timeout = .confirmed ∨
      wait_for_confirmation poll timeout = .reverted ∨
      wait_for_confirmation poll timeout = .timedOut) ∧
    (ConfirmOutcome.confirmed ≠ ConfirmOutcome.reverted ∧
      ConfirmOutcome.confirmed ≠ ConfirmOutcome.timedOut ∧
      ConfirmOutcome.reverted ≠ ConfirmOutcome.timedOut) := by
  refine ⟨?_, ?_, ?_, ?_, ?_, by decide⟩
  · intro hnone
    exact waitLoop_timedOut_of poll timeout timeout 0 (by omega) (fun k _ hk => hnone k hk)
  · intro k hk hres hprev
    have h := waitLoop_resolve_at poll timeout true k 0 (by simpa using hk)
      (by simpa using hres) (fun j hj => by simpa using hprev j hj)
    simpa using h
  · intro k hk hres hprev
    have h := waitLoop_resolve_at poll timeout false k 0 (by simpa using hk)
      (by simpa using hres) (fun j hj => by simpa using hprev j hj)
    simpa using h
  · intro poll2 hpp
    exact waitLoop_congr poll poll2 timeout hpp timeout 0 (by omega)
  · unfold wait_for_confirmation
    cases waitLoop poll timeout 0 <;> simp

/-- Witness for C5 at two concrete poll traces: an immediate success
receipt yields Confirmed, and a trace with no receipt yields TimedOut. -/
theorem confirmation_watcher_spec_witness :
    wait_for_confirmation pollsNow 300 = .confirmed ∧
    wait_for_confirmation pollsNever 300 = .timedOut :=
  ⟨(confirmation_watcher_spec pollsNow 300).2.1 0 (by decide) (by decide)
      (fun j hj => absurd hj (Nat.not_lt_zero j)),
    (confirmation_watcher_spec pollsNever 300).1 (fun k _ => rfl)⟩

/-- C7: the balance gate returns, for a wrap, true iff the native balance
is at least max_priority_fee_per_gas times the gas estimate (the fee
alone, not fee plus the wrapped amount); for an unwrap, true iff the
wrapped-token balance is at least the amount; and for either kind it
returns false whenever the gas estimation raises. -/
theorem balance_gate_spec (amount : Nat) (env : GateEnv) :
    (env.estGas = .error () →
      has_sufficient_balance amount true env = false ∧
      has_sufficient_balance amount false env = false) ∧
    (∀ g b, env.estGas = .ok g → env.ethBalance = .ok b →
      (has_sufficient_balance amount true env = true ↔
        (max_priority_fee_per_gas : Int) * g ≤ b)) ∧
    (∀ g b, env.estGas = .ok g → env.wethBalance = .ok b →
      (has_sufficient_balance amount false env = true ↔ (amount : Int) ≤ b)) := by
  refine ⟨?_, ?_, ?_⟩
  · intro h
    constructor <;> simp [has_sufficient_balance, h]
  · intro g b hg hb
    simp [has_sufficient_balance, hg, hb]
  · intro g b hg hb
    simp [has_sufficient_balance, hg, hb]

/-- Witness for C7: with a 21000 gas estimate the fee bound is
525000000000 wei, so a wrap with a richer native balance passes the gate
and an unwrap with a 5 wei token balance against a 6 wei amount fails. -/
theorem balance_gate_spec_witness :
    has_sufficient_balance 6 true gateRich = true ∧
    ¬ has_sufficient_balance 6 false { gateRich with wethBalance := .ok 5 } = true :=
  ⟨((balance_gate_spec 6 gateRich).2.1 21000 1000000000000000 rfl rfl).mpr (by decide),
    fun hc =>
      absurd (((balance_gate_spec 6 { gateRich with wethBalance := .ok 5 }).2.2
        21000 5 rfl rfl).mp hc) (by decide)⟩

/-- C8: every payload is addressed to the wrapped-token contract and
carries the nonce fetched by this very call; the wrap payload carries the
amount as native value with data exactly the fixed 4-byte deposit
selector, and the unwrap payload's data is the withdraw selector followed
by the amount as a 32-byte big-endian argument; moreover, once the gate
passes and the estimation returns, the attempt functions sign exactly
these payloads built from the freshly fetched nonce. -/
theorem submitter_payload_spec (wethAddr : Address) (nonce g amount : Nat) :
    (buildWrapTxn wethAddr nonce g amount).toAddr = wethAddr ∧
    (buildWrapTxn wethAddr nonce g amount).nonce = nonce ∧
    (buildWrapTxn wethAddr nonce g amount).value = some amount ∧
    (buildWrapTxn wethAddr nonce g amount).data = depositSelector ∧
    depositSelector.length = 4 ∧
    (buildUnwrapTxn wethAddr nonce g amount).toAddr = wethAddr ∧
    (buildUnwrapTxn wethAddr nonce g amount).nonce = nonce ∧
    (buildUnwrapTxn wethAddr nonce g amount).value = none ∧
    (buildUnwrapTxn wethAddr nonce g amount).data =
      withdrawSelector ++ toBytesBE 32 amount ∧
    withdrawSelector.length = 4 ∧
    (toBytesBE 32 amount).length = 32 ∧
    (amount < 256 ^ 32 → ofBytesBE (toBytesBE 32 amount) = amount) ∧
    (∀ env : AttemptEnv, has_sufficient_balance amount true env.gate = true →
      env.estGas = .ok g →
      wrap_eth_to_weth wethAddr amount env =
        match env.signTx (buildWrapTxn wethAddr env.nonce g amount) with
        | .error e => .error e
        | .ok _ =>
          match env.send with
          | .error _ => .ok false
          | .ok _ => .ok (decide (wait_for_confirmation env.polls 300 = .confirmed))) ∧
    (∀ env : AttemptEnv, has_sufficient_balance amount false env.gate = true →
      env.estGas = .ok g →
      unwrap_weth_to_eth wethAddr amount env =
        match env.signTx (buildUnwrapTxn wethAddr env.nonce g amount) with
        | .error e => .error e
        | .ok _ =>
          match env.send with
          | .error _ => .ok false
          | .ok _ => .ok (decide (wait_for_confirmation env.polls 300 = .confirmed))) := by
  refine ⟨rfl, rfl, rfl, rfl, rfl, rfl, rfl, rfl, rfl, rfl,
    toBytesBE_length 32 amount, ofBytesBE_toBytesBE 32 amount, ?_, ?_⟩
  · intro env hgate hest
    simp [wrap_eth_to_weth, hgate, hest]
  · intro env hgate hest
    simp [unwrap_weth_to_eth, hgate, hest]

/-- Witness for C8 at the configured amount of 0.4 ether: the encoding
hypothesis amount_in_wei < 256 ^ 32 holds and the payload facts follow. -/
theorem submitter_payload_spec_witness :
    (buildWrapTxn "0xWETH" 7 21000 amount_in_wei).nonce = 7 ∧
    ofBytesBE (toBytesBE 32 amount_in_wei) = amount_in_wei ∧
    wrap_eth_to_weth "0xWETH" amount_in_wei envSendFail = .ok false := by
  have h := submitter_payload_spec "0xWETH" 7 21000 amount_in_wei
  refine ⟨h.2.1, h.2.2.2.2.2.2.2.2.2.2.2.1 (by decide), ?_⟩
  have hw := h.2.2.2.2.2.2.2.2.2.2.2.2.1 envSendFail (by decide) rfl
  rw [hw]
  rfl

/-- C9 counterexample: the persisted file containing the empty JSON
object decodes fine, but the subscript status["wrap_counter"] raises a
KeyError that the except clause (which names only FileNotFoundError and
JSONDecodeError) does not catch, so this malformed file aborts the load
instead of yielding the zero state. -/
theorem load_missing_fields_raises :
    load_transaction_status (.parsed []) = .error () ∧
    ∀ w u t : Int, load_transaction_status (.parsed []) ≠ .ok (w, u, t) := by
  refine ⟨rfl, ?_⟩
  intro w u t h
  simp [load_transaction_status, lookupField] at h

/-- C9 amended: an absent file or a file whose text fails JSON decoding
loads as the zero state without aborting, and a decoded object carrying
the three expected fields loads as those values — in particular any file
written by save_transaction_status; but an object missing a field raises
an uncaught KeyError (see the counterexample). -/
theorem load_zero_state_amended :
    load_transaction_status .notFound = .ok (0, 0, 0) ∧
    load_transaction_status .decodeError = .ok (0, 0, 0) ∧
    (∀ obj w u t, lookupField obj "wrap_counter" = .ok w →
      lookupField obj "unwrap_counter" = .ok u →
      lookupField obj "total_tx" = .ok t →
      load_transaction_status (.parsed obj) = .ok (w, u, t)) ∧
    (∀ w u t, load_transaction_status (.parsed (save_transaction_status w u t)) =
      .ok (w, u, t)) := by
  refine ⟨rfl, rfl, ?_, ?_⟩
  · intro obj w u t h1 h2 h3
    simp [load_transaction_status, h1, h2, h3]
  · intro w u t
    rfl

/-- Witness for C9 amended: loading the record saved for counters 1, 2, 3
returns exactly those counters. -/
theorem load_zero_state_amended_witness :
    load_transaction_status (.parsed (save_transaction_status 1 2 3)) = .ok (1, 2, 3) :=
  load_zero_state_amended.2.2.2 1 2 3

/-- C6 counterexample: an attempt whose signing call raises.  The balance
gate passes and gas estimation succeeds, but sign_transaction sits outside
the try block, so the attempt propagates the exception instead of
returning a failure value — the claim that any signing failure yields an
error result is false on the code. -/
theorem signing_failure_escapes :
    wrap_eth_to_weth "0xWETH" amount_in_wei envSignFail = .error () ∧
    ∀ b : Bool, wrap_eth_to_weth "0xWETH" amount_in_wei envSignFail ≠ .ok b := by
  refine ⟨rfl, ?_⟩
  intro b h
  rw [show wrap_eth_to_weth "0xWETH" amount_in_wei envSignFail = .error () from rfl] at h
  exact Except.noConfusion h

/-- C6 amended: failures inside the balance gate (including estimation
failures there) and broadcast failures make the attempt return False with
counters untouched; but a failure of the post-gate gas estimation or of
the signing call escapes the attempt as an unhandled exception, because
those two calls sit outside any try block. -/
theorem soft_error_handling_amended (wethAddr : Address) (amount : Nat) (env : AttemptEnv) :
    (has_sufficient_balance amount true env.gate = false →
      wrap_eth_to_weth wethAddr amount env = .ok false) ∧
    (has_sufficient_balance amount false env.gate = false →
      unwrap_weth_to_eth wethAddr amount env = .ok false) ∧
    (env.gate.estGas = .error () →
      wrap_eth_to_weth wethAddr amount env = .ok false ∧
      unwrap_weth_to_eth wethAddr amount env = .ok false) ∧
    (∀ g, env.estGas = .ok g →
      env.signTx (buildWrapTxn wethAddr env.nonce g amount) = .ok () →
      env.send = .error () →
      wrap_eth_to_weth wethAddr amount env = .ok false) ∧
    (∀ g, env.estGas = .ok g →
      env.signTx (buildUnwrapTxn wethAddr env.nonce g amount) = .ok () →
      env.send = .error () →
      unwrap_weth_to_eth wethAddr amount env = .ok false) ∧
    (has_sufficient_balance amount true env.gate = true →
      env.estGas = .error () →
      wrap_eth_to_weth wethAddr amount env = .error ()) ∧
    (∀ g, has_sufficient_balance amount true env.gate = true →
      env.estGas = .ok g →
      env.signTx (buildWrapTxn wethAddr env.nonce g amount) = .error () →
      wrap_eth_to_weth wethAddr amount env = .error ()) := by
  refine ⟨?_, ?_, ?_, ?_, ?_, ?_, ?_⟩
  · intro h
    simp [wrap_eth_to_weth, h]
  · intro h
    simp [unwrap_weth_to_eth, h]
  · intro h
    have hg : ∀ w : Bool, has_sufficient_balance amount w env.gate = false := by
      intro w
      simp [has_sufficient_balance, h]
    exact ⟨by simp [wrap_eth_to_weth, hg true], by simp [unwrap_weth_to_eth, hg false]⟩
  · intro g hg hsign hsend
    by_cases hgate : has_sufficient_balance amount true env.gate = true
    · simp [wrap_eth_to_weth, hgate, hg, hsign, hsend]
    · simp [wrap_eth_to_weth, Bool.not_eq_true _ ▸ hgate]
  · intro g hg hsign hsend
    by_cases hgate : has_sufficient_balance amount false env.gate = true
    · simp [unwrap_weth_to_eth, hgate, hg, hsign, hsend]
    · simp [unwrap_weth_to_eth, Bool.not_eq_true _ ▸ hgate]
  · intro hgate hg
    simp [wrap_eth_to_weth, hgate, hg]
  · intro g hgate hg hsign
    simp [wrap_eth_to_weth, hgate, hg, hsign]

/-- Witness for C6 amended: the broadcast-failure case at a concrete
environment returns False rather than raising. -/
theorem soft_error_handling_amended_witness :
    wrap_eth_to_weth "0xWETH" amount_in_wei envSendFail = .ok false :=
  (soft_error_handling_amended "0xWETH" amount_in_wei envSendFail).2.2.2.1 21000 rfl rfl rfl

/-- C4: when an attempt fails — insufficient balance, broadcast error, a
reverted receipt or a timeout — the attempt function returns False, the
corresponding loop branch leaves all three counters unchanged and
persists nothing, so the same operation is eligible again on a later
iteration with an unchanged guard. -/
theorem failed_attempt_no_progress (s : St) (wethAddr : Address) (amount : Nat)
    (env : AttemptEnv) :
    (wrapBranch (.ok false) s = (.ok s, []) ∧ unwrapBranch (.ok false) s = (.ok s, [])) ∧
    (has_sufficient_balance amount true env.gate = false →
      wrap_eth_to_weth wethAddr amount env = .ok false) ∧
    (has_sufficient_balance amount false env.gate = false →
      unwrap_weth_to_eth wethAddr amount env = .ok false) ∧
    (∀ g, env.estGas = .ok g →
      env.signTx (buildWrapTxn wethAddr env.nonce g amount) = .ok () →
      env.send = .error () →
      wrap_eth_to_weth wethAddr amount env = .ok false) ∧
    (∀ g h, env.estGas = .ok g →
      env.signTx (buildWrapTxn wethAddr env.nonce g amount) = .ok () →
      env.send = .ok h →
      wait_for_confirmation env.polls 300 ≠ .confirmed →
      wrap_eth_to_weth wethAddr amount env = .ok false) ∧
    (∀ g h, env.estGas = .ok g →
      env.signTx (buildUnwrapTxn wethAddr env.nonce g amount) = .ok () →
      env.send = .ok h →
      wait_for_confirmation env.polls 300 ≠ .confirmed →
      unwrap_weth_to_eth wethAddr amount env = .ok false) := by
  refine ⟨⟨?_, ?_⟩, ?_, ?_, ?_, ?_, ?_⟩
  · unfold wrapBranch
    split_ifs <;> rfl
  · unfold unwrapBranch
    split_ifs <;> rfl
  · intro h
    simp [wrap_eth_to_weth, h]
  · intro h
    simp [unwrap_weth_to_eth, h]
  · intro g hg hsign hsend
    by_cases hgate : has_sufficient_balance amount true env.gate = true
    · simp [wrap_eth_to_weth, hgate, hg, hsign, hsend]
    · simp [wrap_eth_to_weth, Bool.not_eq_true _ ▸ hgate]
  · intro g h hg hsign hsend hconf
    by_cases hgate : has_sufficient_balance amount true env.gate = true
    · simp [wrap_eth_to_weth, hgate, hg, hsign, hsend, decide_eq_false hconf]
    · simp [wrap_eth_to_weth, Bool.not_eq_true _ ▸ hgate]
  · intro g h hg hsign hsend hconf
    by_cases hgate : has_sufficient_balance amount false env.gate = true
    · simp [unwrap_weth_to_eth, hgate, hg, hsign, hsend, decide_eq_false hconf]
    · simp [unwrap_weth_to_eth, Bool.not_eq_true _ ▸ hgate]

/-- Witness for C4: a concrete failed attempt (broadcast error) returns
False and the wrap branch leaves the concrete state 3/4/7 untouched. -/
theorem failed_attempt_no_progress_witness :
    wrapBranch (.ok false) ⟨3, 4, 7, true⟩ = (.ok ⟨3, 4, 7, true⟩, []) ∧
    wrap_eth_to_weth "0xWETH" amount_in_wei envSendFail = .ok false :=
  ⟨(failed_attempt_no_progress ⟨3, 4, 7, true⟩ "0xWETH" amount_in_wei envSendFail).1.1,
    (failed_attempt_no_progress ⟨3, 4, 7, true⟩ "0xWETH" amount_in_wei
      envSendFail).2.2.2.1 21000 rfl rfl rfl⟩

/-! ## Helper lemmas about the orchestrator loop -/

lemma wrapBranch_char (r : Except Unit Bool) (s : St) :
    wrapBranch r s = (.ok s, []) ∨
    (∃ e, s.wrap < 45 ∧ s.total < 90 ∧ r = .error e ∧ wrapBranch r s = (.error e, [])) ∨
    (s.wrap < 45 ∧ s.total < 90 ∧ r = .ok true ∧
      wrapBranch r s =
        (.ok ⟨s.wrap + 1, s.unwrap, s.total + 1, true⟩,
          [⟨s.wrap + 1, s.unwrap, s.total + 1, true⟩])) := by
  unfold wrapBranch
  split_ifs with hg
  · cases r with
    | error e => exact Or.inr (Or.inl ⟨e, hg.1, hg.2, rfl, rfl⟩)
    | ok b =>
      cases b
      · exact Or.inl rfl
      · exact Or.inr (Or.inr ⟨hg.1, hg.2, rfl, rfl⟩)
  · exact Or.inl rfl

lemma unwrapBranch_char (r : Except Unit Bool) (s : St) :
    unwrapBranch r s = (.ok s, []) ∨
    (∃ e, s.unwrap < 45 ∧ s.total < 90 ∧ r = .error e ∧ unwrapBranch r s = (.error e, [])) ∨
    (s.unwrap < 45 ∧ s.total < 90 ∧ r = .ok true ∧
      unwrapBranch r s =
        (.ok ⟨s.wrap, s.unwrap + 1, s.total + 1, true⟩,
          [⟨s.wrap, s.unwrap + 1, s.total + 1, true⟩])) := by
  unfold unwrapBranch
  split_ifs with hg
  · cases r with
    | error e => exact Or.inr (Or.inl ⟨e, hg.1, hg.2, rfl, rfl⟩)
    | ok b =>
      cases b
      · exact Or.inl rfl
      · exact Or.inr (Or.inr ⟨hg.1, hg.2, rfl, rfl⟩)
  · exact Or.inl rfl

lemma quotaCheck_counters (s : St) :
    (quotaCheck s).wrap = s.wrap ∧ (quotaCheck s).unwrap = s.unwrap ∧
    (quotaCheck s).total = s.total := by
  unfold quotaCheck
  split_ifs <;> simp

lemma quotaCheck_file_of_ge (s : St) (h : 90 ≤ s.total) : (quotaCheck s).file = false := by
  unfold quotaCheck
  rw [if_pos (show s.total ≥ 90 from h)]

lemma cycle_preserves (P : St → Prop)
    (hP1 : ∀ s : St, P s → s.wrap < 45 → s.total < 90 →
      P ⟨s.wrap + 1, s.unwrap, s.total + 1, true⟩)
    (hP2 : ∀ s : St, P s → s.unwrap < 45 → s.total < 90 →
      P ⟨s.wrap, s.unwrap + 1, s.total + 1, true⟩)
    (hPq : ∀ s : St, P s → P (quotaCheck s))
    (rw ru : Except Unit Bool) (s : St) (hs : P s) :
    (∀ s2, (cycle rw ru s).1 = .ok s2 → P s2) ∧ ∀ x ∈ (cycle rw ru s).2, P x := by
  have main : ∀ s1 l1, wrapBranch rw s = (.ok s1, l1) → P s1 → (∀ x ∈ l1, P x) →
      (∀ s2, (cycle rw ru s).1 = .ok s2 → P s2) ∧ ∀ x ∈ (cycle rw ru s).2, P x := by
    intro s1 l1 heq hs1 hl1
    rcases unwrapBranch_char ru s1 with heq2 | ⟨e, _, _, _, heq2⟩ | ⟨hu45, ht90, _, heq2⟩
    · simp only [cycle, heq, heq2]
      constructor
      · intro s2 h2
        have h2 : quotaCheck s1 = s2 := by simpa using h2
        exact h2 ▸ hPq s1 hs1
      · intro x hx
        have hx : x ∈ l1 := by simpa using hx
        exact hl1 x hx
    · simp only [cycle, heq, heq2]
      constructor
      · intro s2 h2
        exact absurd h2 (by simp)
      · intro x hx
        have hx : x ∈ l1 := by simpa using hx
        exact hl1 x hx
    · simp only [cycle, heq, heq2]
      constructor
      · intro s2 h2
        have h2 : quotaCheck ⟨s1.wrap, s1.unwrap + 1, s1.total + 1, true⟩ = s2 := by
          simpa using h2
        exact h2 ▸ hPq _ (hP2 s1 hs1 hu45 ht90)
      · intro x hx
        rcases List.mem_append.mp hx with hx | hx
        · exact hl1 x hx
        · have hx : x = ⟨s1.wrap, s1.unwrap + 1, s1.total + 1, true⟩ := by simpa using hx
          exact hx ▸ hP2 s1 hs1 hu45 ht90
  rcases wrapBranch_char rw s with heq | ⟨e, _, _, _, heq⟩ | ⟨hw45, ht90, _, heq⟩
  · exact main s [] heq hs (by simp)
  · constructor
    · intro s2 h2
      simp only [cycle, heq] at h2
      exact absurd h2 (by simp)
    · intro x hx
      simp only [cycle, heq] at hx
      simp at hx
  · refine main _ [⟨s.wrap + 1, s.unwrap, s.total + 1, true⟩] heq
      (hP1 s hs hw45 ht90) ?_
    intro x hx
    have hx : x = ⟨s.wrap + 1, s.unwrap, s.total + 1, true⟩ := by simpa using hx
    exact hx ▸ hP1 s hs hw45 ht90

lemma stateAt_preserves (P : St → Prop)
    (hP1 : ∀ s : St, P s → s.wrap < 45 → s.total < 90 →
      P ⟨s.wrap + 1, s.unwrap, s.total + 1, true⟩)
    (hP2 : ∀ s : St, P s → s.unwrap < 45 → s.total < 90 →
      P ⟨s.wrap, s.unwrap + 1, s.total + 1, true⟩)
    (hPq : ∀ s : St, P s → P (quotaCheck s))
    (env : Nat → Except Unit Bool × Except Unit Bool) (s0 : St) (hs0 : P s0) :
    ∀ n, (∀ s, stateAt env s0 n = .ok s → P s) ∧ ∀ x ∈ savesIn env s0 n, P x := by
  have hstate : ∀ n s, stateAt env s0 n = .ok s → P s := by
    intro n
    induction n with
    | zero =>
      intro s h
      have h : s0 = s := by simpa [stateAt] using h
      exact h ▸ hs0
    | succ n ih =>
      intro s h
      cases hprev : stateAt env s0 n with
      | error e => simp only [stateAt, hprev] at h; exact absurd h (by simp)
      | ok sp =>
        simp only [stateAt, hprev] at h
        by_cases hlt : sp.total < 90
        · rw [if_pos hlt] at h
          exact (cycle_preserves P hP1 hP2 hPq _ _ sp (ih sp hprev)).1 s h
        · rw [if_neg hlt] at h
          have h : sp = s := by simpa using h
          exact h ▸ ih sp hprev
  refine fun n => ⟨hstate n, ?_⟩
  intro x hx
  cases hprev : stateAt env s0 n with
  | error e => simp only [savesIn, hprev] at hx; simp at hx
  | ok sp =>
    simp only [savesIn, hprev] at hx
    by_cases hlt : sp.total < 90
    · rw [if_pos hlt] at hx
      exact (cycle_preserves P hP1 hP2 hPq _ _ sp (hstate n sp hprev)).2 x hx
    · rw [if_neg hlt] at hx
      simp at hx

/-- C1: starting from a loaded state whose total equals the sum of the
two counters, every state the loop ever persists (and every state it
reaches at a cycle boundary) still satisfies total = wrap + unwrap. -/
theorem saved_states_preserve_sum (env : Nat → Except Unit Bool × Except Unit Bool)
    (s0 : St) (h0 : s0.total = s0.wrap + s0.unwrap) :
    ∀ n, (∀ s, stateAt env s0 n = .ok s → s.total = s.wrap + s.unwrap) ∧
      ∀ x ∈ savesIn env s0 n, x.total = x.wrap + x.unwrap := by
  refine stateAt_preserves (fun s => s.total = s.wrap + s.unwrap) ?_ ?_ ?_ env s0 h0
  · intro s hs _ _
    show s.total + 1 = s.wrap + 1 + s.unwrap
    omega
  · intro s hs _ _
    show s.total + 1 = s.wrap + (s.unwrap + 1)
    omega
  · intro s hs
    have hq := quotaCheck_counters s
    rw [hq.1, hq.2.1, hq.2.2]
    exact hs

/-- Witness for C1: from the zero state, the first persisted state of an
all-confirming run is 1/0/1 and satisfies the sum equation. -/
theorem saved_states_preserve_sum_witness :
    (⟨1, 0, 1, true⟩ : St).total = (⟨1, 0, 1, true⟩ : St).wrap + (⟨1, 0, 1, true⟩ : St).unwrap :=
  (saved_states_preserve_sum envAllOk ⟨0, 0, 0, false⟩ rfl 0).2 ⟨1, 0, 1, true⟩ (by decide)

/-- C2: starting from a loaded state with wrap ≤ 45, unwrap ≤ 45 and
total ≤ 90, every reachable cycle-boundary state and every persisted
state keeps wrap ≤ 45, unwrap ≤ 45 and total ≤ 90 — each branch is
guarded by its per-operation cap and by total < 90 before incrementing. -/
theorem loop_counters_bounded (env : Nat → Except Unit Bool × Except Unit Bool)
    (s0 : St) (h1 : s0.wrap ≤ 45) (h2 : s0.unwrap ≤ 45) (h3 : s0.total ≤ 90) :
    ∀ n, (∀ s, stateAt env s0 n = .ok s → s.wrap ≤ 45 ∧ s.unwrap ≤ 45 ∧ s.total ≤ 90) ∧
      ∀ x ∈ savesIn env s0 n, x.wrap ≤ 45 ∧ x.unwrap ≤ 45 ∧ x.total ≤ 90 := by
  refine stateAt_preserves (fun s => s.wrap ≤ 45 ∧ s.unwrap ≤ 45 ∧ s.total ≤ 90)
    ?_ ?_ ?_ env s0 ⟨h1, h2, h3⟩
  · intro s hs hw ht
    exact ⟨by show s.wrap + 1 ≤ 45; omega, hs.2.1, by show s.total + 1 ≤ 90; omega⟩
  · intro s hs hu ht
    exact ⟨hs.1, by show s.unwrap + 1 ≤ 45; omega, by show s.total + 1 ≤ 90; omega⟩
  · intro s hs
    have hq := quotaCheck_counters s
    rw [hq.1, hq.2.1, hq.2.2]
    exact hs

/-- Witness for C2: after one all-confirming cycle from the zero state the
counters are 1/1/2, within all bounds. -/
theorem loop_counters_bounded_witness :
    (⟨1, 1, 2, true⟩ : St).wrap ≤ 45 ∧ (⟨1, 1, 2, true⟩ : St).unwrap ≤ 45 ∧
    (⟨1, 1, 2, true⟩ : St).total ≤ 90 :=
  (loop_counters_bounded envAllOk ⟨0, 0, 0, false⟩ (by decide) (by decide) (by decide) 1).1
    ⟨1, 1, 2, true⟩ (by rfl)

lemma quotaCheck_file_of_total (s : St) (h : 90 ≤ (quotaCheck s).total) :
    (quotaCheck s).file = false := by
  have hq := (quotaCheck_counters s).2.2
  exact quotaCheck_file_of_ge s (by omega)

lemma cycle_ok_file (rw ru : Except Unit Bool) (s s2 : St)
    (h : (cycle rw ru s).1 = .ok s2) (h90 : 90 ≤ s2.total) : s2.file = false := by
  rcases wrapBranch_char rw s with heq | ⟨e, _, _, _, heq⟩ | ⟨hw45, ht90, _, heq⟩
  · rcases unwrapBranch_char ru s with heq2 | ⟨e2, _, _, _, heq2⟩ | ⟨hu45, hu90, _, heq2⟩
    · simp only [cycle, heq, heq2] at h
      have h : quotaCheck s = s2 := by simpa using h
      subst h
      exact quotaCheck_file_of_total s h90
    · simp only [cycle, heq, heq2] at h
      exact absurd h (by simp)
    · simp only [cycle, heq, heq2] at h
      have h : quotaCheck ⟨s.wrap, s.unwrap + 1, s.total + 1, true⟩ = s2 := by simpa using h
      subst h
      exact quotaCheck_file_of_total ⟨s.wrap, s.unwrap + 1, s.total + 1, true⟩ h90
  · simp only [cycle, heq] at h
    exact absurd h (by simp)
  · rcases unwrapBranch_char ru ⟨s.wrap + 1, s.unwrap, s.total + 1, true⟩ with
      heq2 | ⟨e2, _, _, _, heq2⟩ | ⟨hu45, hu90, _, heq2⟩
    · simp only [cycle, heq, heq2] at h
      have h : quotaCheck ⟨s.wrap + 1, s.unwrap, s.total + 1, true⟩ = s2 := by simpa using h
      subst h
      exact quotaCheck_file_of_total ⟨s.wrap + 1, s.unwrap, s.total + 1, true⟩ h90
    · simp only [cycle, heq, heq2] at h
      exact absurd h (by simp)
    · simp only [cycle, heq, heq2] at h
      have h : quotaCheck ⟨s.wrap + 1, s.unwrap + 1, s.total + 1 + 1, true⟩ = s2 := by
        simpa using h
      subst h
      exact quotaCheck_file_of_total ⟨s.wrap + 1, s.unwrap + 1, s.total + 1 + 1, true⟩ h90

lemma stateAt_total_le (env : Nat → Except Unit Bool × Except Unit Bool) (s0 : St)
    (h0 : s0.total ≤ 90) : ∀ n s, stateAt env s0 n = .ok s → s.total ≤ 90 := by
  intro n s h
  refine (stateAt_preserves (fun s => s.total ≤ 90) ?_ ?_ ?_ env s0 h0 n).1 s h
  · intro s _ _ ht
    show s.total + 1 ≤ 90
    omega
  · intro s _ _ ht
    show s.total + 1 ≤ 90
    omega
  · intro s hs
    have hq := quotaCheck_counters s
    omega

lemma stateAt_frozen (env : Nat → Except Unit Bool × Except Unit Bool) (s0 : St)
    (n : Nat) (s : St) (h : stateAt env s0 n = .ok s) (h90 : ¬ s.total < 90) :
    ∀ k, stateAt env s0 (n + k) = .ok s := by
  intro k
  induction k with
  | zero => simpa using h
  | succ k ih =>
    have hnk : n + (k + 1) = (n + k) + 1 := by omega
    rw [hnk]
    simp only [stateAt, ih]
    rw [if_neg h90]

lemma stateAt_file_false (env : Nat → Except Unit Bool × Except Unit Bool) (s0 : St)
    (h0 : s0.total < 90) :
    ∀ n s, stateAt env s0 n = .ok s → 90 ≤ s.total → s.file = false := by
  intro n
  induction n with
  | zero =>
    intro s h hge
    have h : s0 = s := by simpa [stateAt] using h
    subst h
    omega
  | succ n ih =>
    intro s h hge
    cases hprev : stateAt env s0 n with
    | error e => simp only [stateAt, hprev] at h; exact absurd h (by simp)
    | ok sp =>
      simp only [stateAt, hprev] at h
      by_cases hlt : sp.total < 90
      · rw [if_pos hlt] at h
        exact cycle_ok_file _ _ sp s h hge
      · rw [if_neg hlt] at h
        have h : sp = s := by simpa using h
        subst h
        exact ih sp hprev hge

/-- C3 counterexample: a loaded starting state with total 100.  The while
condition is false at once, so the run ends with its state unchanged:
total is 100, not 90, and the status file is still present — deletion
happens only inside the loop body.  This refutes the claim for arbitrary
loaded starting states. -/
theorem loop_exit_claim_fails :
    stateAt envAllFail stHigh 1 = .ok stHigh ∧
    ¬ stHigh.total < 90 ∧ stHigh.total ≠ 90 ∧ stHigh.file = true :=
  ⟨rfl, by decide, by decide, rfl⟩

/-- C3 amended: for a loaded starting state with total < 90, the loop
keeps iterating exactly while total < 90, and whenever a reachable state
has total ≥ 90 the run has terminated there with total exactly 90 and the
persisted file deleted.  (With a loaded total already ≥ 90 the loop body
never runs and the file survives — see the counterexample and C10.) -/
theorem loop_termination_amended (env : Nat → Except Unit Bool × Except Unit Bool)
    (s0 : St) (h0 : s0.total < 90) :
    ∀ n s, stateAt env s0 n = .ok s →
      (s.total < 90 → stateAt env s0 (n + 1) = (cycle (env n).1 (env n).2 s).1) ∧
      (90 ≤ s.total → s.total = 90 ∧ s.file = false ∧
        ∀ k, stateAt env s0 (n + k) = .ok s) := by
  intro n s h
  constructor
  · intro hlt
    simp only [stateAt, h]
    rw [if_pos hlt]
  · intro hge
    have hle := stateAt_total_le env s0 (by omega) n s h
    exact ⟨by omega, stateAt_file_false env s0 h0 n s h hge,
      stateAt_frozen env s0 n s h (by omega)⟩

/-- Witness for C3 amended: from the loaded state 44/45/89, one cycle in
which the wrap attempt confirms reaches 45/45/90 with the file deleted. -/
theorem loop_termination_amended_witness :
    (⟨45, 45, 90, false⟩ : St).total = 90 ∧ (⟨45, 45, 90, false⟩ : St).file = false :=
  have h := (loop_termination_amended envAllOk ⟨44, 45, 89, true⟩ (by decide) 1
    ⟨45, 45, 90, false⟩ (by rfl)).2 (by decide)
  ⟨h.1, h.2.1⟩

/-- C10: when the loaded state already has total ≥ 90, the while condition
fails immediately: the loop body never runs, no attempt is made, no state
is persisted, the counters never change, and the file is left in place
(the state, including its file flag, is frozen forever). -/
theorem quota_met_at_start_loop_inert (env : Nat → Except Unit Bool × Except Unit Bool)
    (s0 : St) (h : 90 ≤ s0.total) :
    ∀ n, stateAt env s0 n = .ok s0 ∧ savesIn env s0 n = [] := by
  have hstate : ∀ m, stateAt env s0 m = .ok s0 := by
    intro m
    induction m with
    | zero => rfl
    | succ m ih =>
      simp only [stateAt, ih]
      rw [if_neg (by omega)]
  intro n
  refine ⟨hstate n, ?_⟩
  simp only [savesIn, hstate n]
  rw [if_neg (by omega)]

/-- Witness for C10: from the loaded state 45/45/90, three iterations
later nothing has changed and nothing was ever saved. -/
theorem quota_met_at_start_loop_inert_witness :
    stateAt envAllOk ⟨45, 45, 90, true⟩ 3 = .ok ⟨45, 45, 90, true⟩ ∧
    savesIn envAllOk ⟨45, 45, 90, true⟩ 3 = [] :=
  quota_met_at_start_loop_inert envAllOk ⟨45, 45, 90, true⟩ (by decide) 3

end WrapBot
